import Mathlib

/-!
Shallow embedding of the Zephyr USB Audio class driver
(`subsys/usb/class/audio/audio.c` plus its headers) and proofs about it.

Bytes and multi-byte wire fields are modelled as `Nat`; error returns use
`Int` so that the negative errno convention of the C code is kept.  Packed
descriptor blobs are modelled as Lean structures holding exactly the fields
the driver reads or writes; the fixed-offset pointer arithmetic of the C
code is reflected in comments at each definition.
-/

namespace ZephyrUsbAudio

/-! ### Constants from the headers -/

/-- Zephyr errno value for `EINVAL`. -/
def EINVAL : Int := 22
/-- Zephyr errno value for `EAGAIN`. -/
def EAGAIN : Int := 11

/-- `SET_CUR` request code (audio10.pdf Table A-9, `usb_audio_internal.h`). -/
def SET_CUR : Nat := 0x01
/-- `GET_CUR` request code. -/
def GET_CUR : Nat := 0x81

/-- Feature-unit control selectors (audio10.pdf Table A-11, `usb_audio.h`). -/
def MUTE_CONTROL : Nat := 0x01
def VOLUME_CONTROL : Nat := 0x02
def BASS_CONTROL : Nat := 0x03
def MID_CONTROL : Nat := 0x04
def TREBLE_CONTROL : Nat := 0x05
def GRAPHIC_EQUALIZER_CONTROL : Nat := 0x06
def AUTOMATIC_GAIN_CONTROL : Nat := 0x07
def DELAY_CONTROL : Nat := 0x08
def BASS_BOOST_CONTROL : Nat := 0x09
def LOUDNESS_CONTROL : Nat := 0x0A

/-- `USB_STREAMING` terminal type (termt10.pdf Table 2-1). -/
def USB_STREAMING : Nat := 0x0101

/-- `USB_CS_INTERFACE_DESC` descriptor type (0x24, class-specific interface). -/
def USB_CS_INTERFACE_DESC : Nat := 0x24

/-- `HEADER` class-specific AC interface descriptor subtype. -/
def HEADER : Nat := 0x01

/-- `FU_FIXED_ELEMS_SIZE` from `usb_audio_internal.h`: bytes of a feature-unit
descriptor outside the `bmaControls` array (incl. the trailing `iFeature`). -/
def FU_FIXED_ELEMS_SIZE : Nat := 7

/-- `AUDIO_EP_SIZE` from `audio.c`. -/
def AUDIO_EP_SIZE : Nat := 192

/-- `REQTYPE_GET_DIR(bmRequestType)`: direction bit of a setup packet. -/
def REQTYPE_GET_DIR (x : Nat) : Nat := (x >>> 7) &&& 0x01
/-- `REQTYPE_DIR_TO_HOST`. -/
def REQTYPE_DIR_TO_HOST : Nat := 1

/-! ### Data model -/

/-- `enum direction` from `usb_audio.h`. -/
inductive direction where
  | IN : direction
  | OUT : direction
deriving Repr, DecidableEq

/-- `struct controls` from `usb_audio.h`.  Only the `mute` field is ever read
or written by the driver (`handle_feature_unit_req`); it is a `bool` in C but
`memcpy` stores a raw request byte into it, so it is modelled as that byte. -/
structure controls where
  mute : Nat
deriving Repr, DecidableEq

/-- `struct audio_ops` from `usb_audio.h`, reduced to whether each callback
pointer is non-NULL (the driver only ever tests the pointers and calls them). -/
structure audio_ops where
  data_request_cb : Bool
  data_written_cb : Bool
  data_received_cb : Bool
  feature_update_cb : Bool
deriving Repr, DecidableEq

/-- `struct feature_unit_descriptor` (`usb_audio_internal.h`) together with the
one field of the output terminal that immediately follows it in the packed
descriptor blob (`get_fu_dir` reads `((u8_t *)fu + fu->bLength)->wTerminalType`).
`bmaControls` is the full per-channel `u16` control bitmap array; the declared
layout guarantees `bLength = FU_FIXED_ELEMS_SIZE + 2 * bmaControls.length`. -/
structure feature_unit_descriptor where
  bLength : Nat
  bUnitID : Nat
  bmaControls : List Nat
  otTerminalType : Nat
deriving Repr, DecidableEq, Inhabited

/-- `get_num_of_channels` from `audio.c`:
`(fu->bLength - FU_FIXED_ELEMS_SIZE) / sizeof(u16_t)`. -/
def get_num_of_channels (fu : feature_unit_descriptor) : Nat :=
  (fu.bLength - FU_FIXED_ELEMS_SIZE) / 2

/-- `get_controls` from `audio.c`: reads the `u16` at `BMA_CONTROLS_OFFSET`,
i.e. `bmaControls[0]`. -/
def get_controls (fu : feature_unit_descriptor) : Nat :=
  fu.bmaControls.getD 0 0

/-- `get_fu_dir` from `audio.c`: the unit feeds the host (direction `IN`) iff
the output terminal following it has `wTerminalType == USB_STREAMING`. -/
def get_fu_dir (fu : feature_unit_descriptor) : direction :=
  if fu.otTerminalType = USB_STREAMING then direction.IN else direction.OUT

/-- `struct usb_audio_dev_data_t` from `audio.c`.  The `header_descr` pointer
is represented by the header fields the driver reads (`bInCollection`,
`baInterfaceNr`) together with `fus`, the feature units reachable from the
header by `get_feature_unit`'s fixed-offset walk (first unit at
`header + bLength + INPUT_TERMINAL_DESC_SIZE`, second one terminal-pair
further).  `controls0`/`controls1` are the two `struct controls` tables of
`controls[2]`. -/
structure usb_audio_dev_data where
  ops : audio_ops
  controls0 : List controls
  controls1 : List controls
  fus : List feature_unit_descriptor
  bInCollection : Nat
  baInterfaceNr : List Nat
  rx_enable : Bool
  tx_enable : Bool
deriving Repr, DecidableEq

/-- `struct usb_setup_packet`. -/
structure usb_setup_packet where
  bmRequestType : Nat
  bRequest : Nat
  wValue : Nat
  wIndex : Nat
deriving Repr, DecidableEq

/-- `struct feature_unit_evt` from `usb_audio.h`; `val` is the byte the
`val` pointer refers to at notification time. -/
structure feature_unit_evt where
  dir : direction
  cs : Nat
  channel : Nat
  val : Nat
deriving Repr, DecidableEq

/-! ### Entity resolver (`is_entity_valid`) -/

/-- `struct usb_audio_entity_desc_header` from `usb_audio_internal.h`. -/
structure usb_audio_entity_desc_header where
  bLength : Nat
  bDescriptorType : Nat
  bDescriptorSubtype : Nat
  bEntityID : Nat
deriving Repr, DecidableEq

/-- The match test of `is_entity_valid`'s loop body. -/
def entity_matches (id : Nat) (h : usb_audio_entity_desc_header) : Bool :=
  h.bDescriptorType == USB_CS_INTERFACE_DESC &&
  h.bDescriptorSubtype != HEADER &&
  h.bEntityID == id

/-- `is_entity_valid` from `audio.c`.  The C function walks the packed
descriptor set header by header (`p += head->bLength`) until a zero-length
header; here the successive headers are given as a list.  Returns the matched
descriptor's `bDescriptorSubtype` (the C code stores it into `ent->subtype`
and returns `true`), or `none` when the walk ends without a match. -/
def is_entity_valid (descs : List usb_audio_entity_desc_header) (id : Nat) :
    Option Nat :=
  match descs with
  | [] => none
  | h :: rest =>
    if h.bLength = 0 then none
    else if entity_matches id h then some h.bDescriptorSubtype
    else is_entity_valid rest id

/-- Helper: the walk of `is_entity_valid` computes `find?` over the prefix of
the descriptor set that precedes the first zero-length header. -/
lemma is_entity_valid_eq_find
    (descs : List usb_audio_entity_desc_header) (id : Nat) :
    is_entity_valid descs id =
      ((descs.takeWhile (fun h => h.bLength != 0)).find? (entity_matches id)).map
        (fun h => h.bDescriptorSubtype) := by
  induction descs with
  | nil => rfl
  | cons h rest ih =>
    rw [is_entity_valid, List.takeWhile_cons]
    by_cases h0 : h.bLength = 0
    · have hb : (h.bLength != 0) = false := by simpa using h0
      rw [if_pos h0, hb]
      rfl
    · have hb : (h.bLength != 0) = true := by simpa using h0
      rw [if_neg h0, hb, if_pos rfl]
      by_cases hm : entity_matches id h = true
      · rw [if_pos hm, List.find?_cons_of_pos _ hm]
        rfl
      · rw [if_neg hm, List.find?_cons_of_neg _ hm, ih]

/-- C8: `is_entity_valid` returns exactly the subtype of the first matching
class-specific non-HEADER descriptor in the prefix of the set before the
first zero-length header, and succeeds iff some such descriptor carries the
requested entity identifier. -/
theorem is_entity_valid_characterization
    (descs : List usb_audio_entity_desc_header) (id : Nat) :
    is_entity_valid descs id =
      ((descs.takeWhile (fun h => h.bLength != 0)).find? (entity_matches id)).map
        (fun h => h.bDescriptorSubtype) ∧
    ((is_entity_valid descs id).isSome ↔
      ∃ h ∈ descs.takeWhile (fun h => h.bLength != 0), entity_matches id h) := by
  refine ⟨is_entity_valid_eq_find descs id, ?_⟩
  rw [is_entity_valid_eq_find]
  simp [List.find?_isSome]

/-! ### Feature unit control handler (`handle_feature_unit_req`) -/

/-- `get_feature_unit` from `audio.c`: locate the feature unit addressed by
`fu_id` and the controls-table index (`device`, the C return value).  The C
walks from `header_descr` to the first unit; if its `bUnitID` does not match
it unconditionally skips one output-terminal/input-terminal pair to the
second unit and returns 1 without re-checking the id.  When the walk leaves
the declared units (unidirectional function asked for a foreign id) the C
reinterprets adjacent bytes; `default` stands for those bytes here. -/
def get_feature_unit (d : usb_audio_dev_data) (fu_id : Nat) :
    Nat × feature_unit_descriptor :=
  let fu0 := d.fus.getD 0 default
  if fu0.bUnitID = fu_id then (0, fu0)
  else (1, d.fus.getD 1 default)

/-- Mutable state threaded through the channel loop of
`handle_feature_unit_req`: the two controls tables, the static
`tmp_data_ptr[3]` scratch buffer, the `(offset, byte)` writes performed on it
(recorded to reason about in-bounds access), the observer notifications
issued, `data_offset`, and `ret`. -/
structure fu_loop_state where
  controls0 : List controls
  controls1 : List controls
  tmp : List Nat
  scratchWrites : List (Nat × Nat)
  events : List feature_unit_evt
  data_offset : Nat
  ret : Int
deriving Repr, DecidableEq

/-- Read `dev_data->controls[device][ch].mute`. -/
def ctrl_get (st : fu_loop_state) (device ch : Nat) : Nat :=
  ((if device = 0 then st.controls0 else st.controls1).getD ch ⟨0⟩).mute

/-- Write `dev_data->controls[device][ch].mute`. -/
def ctrl_set (st : fu_loop_state) (device ch b : Nat) : fu_loop_state :=
  if device = 0 then { st with controls0 := st.controls0.set ch ⟨b⟩ }
  else { st with controls1 := st.controls1.set ch ⟨b⟩ }

/-- One iteration of the `for (ch = ch_start; ch < ch_end; ch++)` loop of
`handle_feature_unit_req`.  Only `MUTE_CONTROL` acts: `SET_CUR` copies one
payload byte into the channel's mute flag and notifies the observer when a
`feature_update_cb` is registered; `GET_CUR` copies the mute flag into
`tmp_data_ptr[data_offset]`; other request codes set `ret = -EINVAL`;
`data_offset` is incremented after the inner switch.  The remaining named
selectors and the default case fall through without touching any state. -/
def fu_step (feature_cb : Bool) (dir : direction) (bRequest cs device : Nat)
    (payload : List Nat) (st : fu_loop_state) (ch : Nat) : fu_loop_state :=
  if cs = MUTE_CONTROL then
    let st' :=
      if bRequest = SET_CUR then
        let b := payload.getD st.data_offset 0
        let st1 := ctrl_set st device ch b
        let st2 :=
          if feature_cb then
            { st1 with events := st1.events ++ [⟨dir, cs, ch, b⟩] }
          else st1
        { st2 with ret := 0 }
      else if bRequest = GET_CUR then
        let v := ctrl_get st device ch
        { st with tmp := st.tmp.set st.data_offset v,
                  scratchWrites := st.scratchWrites ++ [(st.data_offset, v)],
                  ret := 0 }
      else { st with ret := -EINVAL }
    { st' with data_offset := st'.data_offset + 1 }
  else st

/-- Result of one `handle_feature_unit_req` call: the return value, the
updated controls tables and scratch buffer, the scratch writes and observer
events of this call, and — when the request direction is device-to-host —
the reply length (`*len = data_offset`; the reply bytes are then the first
`replyLen` bytes of `tmp`, since `*data = tmp_data_ptr`). -/
structure fu_req_outcome where
  ret : Int
  controls0 : List controls
  controls1 : List controls
  tmp : List Nat
  scratchWrites : List (Nat × Nat)
  events : List feature_unit_evt
  replyLen : Option Nat
deriving Repr, DecidableEq

/-- `handle_feature_unit_req` from `audio.c`.  `payload` is the buffer behind
`*data` on entry; `tmp` is the current contents of the function-static
`tmp_data_ptr[3]`.  `BIT(control_selector)` is modelled as `2 ^ cs` over
`Nat` (exact for all selector values that can pass the `u16`-wide bitmap
test). -/
def handle_feature_unit_req (d : usb_audio_dev_data)
    (pSetup : usb_setup_packet) (payload : List Nat) (tmp : List Nat) :
    fu_req_outcome :=
  let fu_id := (pSetup.wIndex >>> 8) &&& 0xFF
  let dfu := get_feature_unit d fu_id
  let device := dfu.1
  let fu := dfu.2
  let ch_num := pSetup.wValue &&& 0xFF
  let control_selector := (pSetup.wValue >>> 8) &&& 0xFF
  let ch_start := if ch_num = 0xFF then 0 else ch_num
  let ch_end := if ch_num = 0xFF then get_num_of_channels fu else ch_num + 1
  if 2 ^ control_selector &&& (get_controls fu <<< 1) = 0 then
    { ret := -EINVAL, controls0 := d.controls0, controls1 := d.controls1,
      tmp := tmp, scratchWrites := [], events := [], replyLen := none }
  else if get_num_of_channels fu ≤ ch_num ∧ ch_num ≠ 0xFF then
    { ret := -EINVAL, controls0 := d.controls0, controls1 := d.controls1,
      tmp := tmp, scratchWrites := [], events := [], replyLen := none }
  else
    let st0 : fu_loop_state :=
      { controls0 := d.controls0, controls1 := d.controls1, tmp := tmp,
        scratchWrites := [], events := [], data_offset := 0, ret := -EINVAL }
    let st := (List.range' ch_start (ch_end - ch_start)).foldl
      (fu_step d.ops.feature_update_cb (get_fu_dir fu) pSetup.bRequest
        control_selector device payload) st0
    { ret := st.ret, controls0 := st.controls0, controls1 := st.controls1,
      tmp := st.tmp, scratchWrites := st.scratchWrites, events := st.events,
      replyLen :=
        if REQTYPE_GET_DIR pSetup.bmRequestType = REQTYPE_DIR_TO_HOST then
          some st.data_offset
        else none }

/-! ### Streaming state tracker (`audio_dc_interface`) -/

/-- The selected-interface descriptor delivered with a `USB_DC_INTERFACE`
notification.  `activeEpAddr` is the `bEndpointAddress` of the endpoint
descriptor that `audio_dc_interface` reaches by offset arithmetic: when the
selected alternate setting is 0 it first skips `USB_PASSIVE_IF_DESC_SIZE`
bytes to the alternate-1 interface, then in both cases lands on the standard
isochronous endpoint descriptor of the active alternate of that same
streaming interface. -/
structure set_iface_desc where
  bInterfaceNumber : Nat
  bAlternateSetting : Nat
  activeEpAddr : Nat
deriving Repr, DecidableEq

/-- `audio_dc_interface` from `audio.c`: if the notified interface number is
one of the first `bInCollection` entries of the AC header's `baInterfaceNr`,
set `tx_enable` (IN endpoint, address bit 7 set) or `rx_enable` (OUT
endpoint) to the C boolean conversion of the selected alternate setting. -/
def audio_dc_interface (d : usb_audio_dev_data) (si : set_iface_desc) :
    usb_audio_dev_data :=
  if (d.baInterfaceNr.take d.bInCollection).contains si.bInterfaceNumber then
    if si.activeEpAddr &&& 0x80 ≠ 0 then
      { d with tx_enable := si.bAlternateSetting != 0 }
    else
      { d with rx_enable := si.bAlternateSetting != 0 }
  else d

/-! ### Buffer pipeline (`usb_audio_send`, `audio_write_cb`,
`audio_receive_cb`) -/

/-- Observable effects of one `usb_audio_send` call: return value, number of
`usb_transfer` invocations, number of `net_buf_unref` calls on the caller's
buffer, and the device state afterwards. -/
structure send_outcome where
  ret : Int
  transferCalls : Nat
  released : Nat
  dev : usb_audio_dev_data
deriving Repr, DecidableEq

/-- `usb_audio_send` from `audio.c`.  `ep0_addr` is
`cfg->endpoint[0].ep_addr` (the ISO IN endpoint is always placed first in
the endpoint table); `buf_size` is `buffer->size`, the buffer's capacity.
The function never touches the buffer or the device state itself; on success
it hands the buffer to `usb_transfer` exactly once (completion callback
`audio_write_cb`). -/
def usb_audio_send (d : usb_audio_dev_data) (ep0_addr : Nat)
    (buf_size : Nat) (len : Int) : send_outcome :=
  if ep0_addr &&& 0x80 = 0 then
    { ret := -EINVAL, transferCalls := 0, released := 0, dev := d }
  else if d.tx_enable = false then
    { ret := -EAGAIN, transferCalls := 0, released := 0, dev := d }
  else if (buf_size : Int) < len then
    { ret := -EINVAL, transferCalls := 0, released := 0, dev := d }
  else
    { ret := 0, transferCalls := 1, released := 0, dev := d }

/-- Observable effects of the `audio_write_cb` transfer-completion callback:
`net_buf_unref` calls on the transferred buffer, and the sizes passed to
`data_written_cb`. -/
structure write_cb_outcome where
  released : Nat
  written_calls : List Int
deriving Repr, DecidableEq

/-- `audio_write_cb` from `audio.c`: unconditionally releases the buffer back
to the pool, then invokes the user's `data_written_cb` (if registered) with
the transmitted size. -/
def audio_write_cb (d : usb_audio_dev_data) (size : Int) : write_cb_outcome :=
  { released := 1,
    written_calls := if d.ops.data_written_cb then [size] else [] }

/-- Observable effects of one `audio_receive_cb` invocation. -/
structure receive_outcome where
  allocAttempted : Bool
  allocated : Bool
  released : Nat
  delivered : Option Nat
deriving Repr, DecidableEq

/-- `audio_receive_cb` from `audio.c`, for a registered device (the devlist
lookup succeeded).  `buf_avail` is whether `net_buf_alloc` returns a buffer;
`read_ret`/`read_bytes` are the transport `usb_read` results.  With
`rx_enable` false the callback returns before the allocation attempt; a read
error or a zero-length packet releases the buffer; otherwise the buffer and
byte count are forwarded to `data_received_cb` when registered. -/
def audio_receive_cb (d : usb_audio_dev_data) (buf_avail : Bool)
    (read_ret : Int) (read_bytes : Nat) : receive_outcome :=
  if d.rx_enable = false then
    { allocAttempted := false, allocated := false, released := 0,
      delivered := none }
  else if buf_avail = false then
    { allocAttempted := true, allocated := false, released := 0,
      delivered := none }
  else if read_ret ≠ 0 then
    { allocAttempted := true, allocated := true, released := 1,
      delivered := none }
  else if read_bytes = 0 then
    { allocAttempted := true, allocated := true, released := 1,
      delivered := none }
  else if d.ops.data_received_cb then
    { allocAttempted := true, allocated := true, released := 0,
      delivered := some read_bytes }
  else
    { allocAttempted := true, allocated := true, released := 0,
      delivered := none }

/-! ### Descriptor fixup (`fix_fu_descriptors`, `audio_interface_config`) -/

/-- `struct usb_if_descriptor`, reduced to the fields
`audio_interface_config` reads or writes. -/
structure usb_if_descriptor where
  bInterfaceNumber : Nat
  bAlternateSetting : Nat
deriving Repr, DecidableEq, Inhabited

/-- The class-specific AC interface header
(`cs_ac_interface_descriptor_header`), reduced to the fields the fixup pass
uses. -/
structure cs_ac_header where
  bInCollection : Nat
  baInterfaceNr : List Nat
deriving Repr, DecidableEq

/-- One audio function's descriptor set as laid out by
`DECLARE_DESCRIPTOR`/`DECLARE_DESCRIPTOR_BIDIR`: the standard AC interface,
the class-specific AC header, one feature unit per streaming direction (each
bracketed by an input/output terminal the fixup walk skips by size), and per
direction the pair of alternate-setting-0/1 streaming interface descriptors.
`fus.length` and `as_pairs.length` equal `header.bInCollection` on every
declared descriptor. -/
structure audio_descriptor_set where
  std_ac_interface : usb_if_descriptor
  header : cs_ac_header
  fus : List feature_unit_descriptor
  as_pairs : List (usb_if_descriptor × usb_if_descriptor)
deriving Repr, DecidableEq

/-- The loop `for (i = 1; i < n; i++) bmaControls[i] = bmaControls[0];`
acting on the tail of `bmaControls`: overwrite the first `k = n - 1`
entries after the head with the head value `c0`. -/
def fix_from (c0 : Nat) : Nat → List Nat → List Nat
  | _, [] => []
  | 0, l => l
  | k + 1, _ :: rest => c0 :: fix_from c0 k rest

/-- Rewrite channels `1 ≤ i < n` of a `bmaControls` array to the channel-0
bitmap. -/
def fix_bma (l : List Nat) (n : Nat) : List Nat :=
  match l with
  | [] => []
  | c0 :: rest => c0 :: fix_from c0 (n - 1) rest

/-- The per-unit body of `fix_fu_descriptors`. -/
def fix_fu_one (fu : feature_unit_descriptor) : feature_unit_descriptor :=
  { fu with bmaControls := fix_bma fu.bmaControls (get_num_of_channels fu) }

/-- `fix_fu_descriptors` from `audio.c`: mirror channel 0's control bitmap
into all channels of the first feature unit, and of the second one when the
AC header declares two streaming interfaces (`bInCollection == 2`).  On a
declared descriptor the walk always finds the units it dereferences; the
fallback arms model the C walking into unrelated bytes and are excluded by
the shape hypotheses of the theorems below. -/
def fix_fu_descriptors (ds : audio_descriptor_set) : audio_descriptor_set :=
  match ds.fus with
  | [] => ds
  | f0 :: rest =>
    let f0 := fix_fu_one f0
    if ds.header.bInCollection = 2 then
      match rest with
      | [] => { ds with fus := [f0] }
      | f1 :: rest2 => { ds with fus := f0 :: fix_fu_one f1 :: rest2 }
    else { ds with fus := f0 :: rest }

/-- Set both alternate-setting interface descriptors of one streaming
interface pair to interface number `v`. -/
def set_pair_num (p : usb_if_descriptor × usb_if_descriptor) (v : Nat) :
    usb_if_descriptor × usb_if_descriptor :=
  ({ p.1 with bInterfaceNumber := v }, { p.2 with bInterfaceNumber := v })

/-- Apply `set_pair_num` at position `i` of the streaming-pair list. -/
def set_pair_at :
    List (usb_if_descriptor × usb_if_descriptor) → Nat → Nat →
    List (usb_if_descriptor × usb_if_descriptor)
  | [], _, _ => []
  | p :: rest, 0, v => set_pair_num p v :: rest
  | p :: rest, i + 1, v => p :: set_pair_at rest i v

/-- `audio_interface_config` from `audio.c`: run `fix_fu_descriptors`, then
renumber.  The offset walk of the C code lands on: the AC interface (base),
`baInterfaceNr[0]` (base+1), the first streaming pair's alternate-0 and
alternate-1 descriptors (base+1 each, at `header + wTotalLength` and one
`bLength` further), and for `bInCollection == 2` additionally
`baInterfaceNr[1]` (base+2) and the second pair's two descriptors (base+2,
reached by `USB_ACTIVE_IF_DESC_SIZE` and then `USB_PASSIVE_IF_DESC_SIZE`). -/
def audio_interface_config (ds : audio_descriptor_set)
    (bInterfaceNumber : Nat) : audio_descriptor_set :=
  let ds := fix_fu_descriptors ds
  let ds := { ds with
    std_ac_interface :=
      { ds.std_ac_interface with bInterfaceNumber := bInterfaceNumber },
    header :=
      { ds.header with
        baInterfaceNr := ds.header.baInterfaceNr.set 0 (bInterfaceNumber + 1) },
    as_pairs := set_pair_at ds.as_pairs 0 (bInterfaceNumber + 1) }
  if ds.header.bInCollection = 2 then
    { ds with
      header :=
        { ds.header with
          baInterfaceNr := ds.header.baInterfaceNr.set 1 (bInterfaceNumber + 2) },
      as_pairs := set_pair_at ds.as_pairs 1 (bInterfaceNumber + 2) }
  else ds

/-! ### Arithmetic helpers for the wire-field extractions -/

lemma and_255_eq_mod (x : Nat) : x &&& 255 = x % 256 := by
  have h := Nat.and_pow_two_sub_one_eq_mod x 8
  norm_num at h
  exact h

lemma shiftRight_8_eq_div (x : Nat) : x >>> 8 = x / 256 := by
  have h := Nat.shiftRight_eq_div_pow x 8
  norm_num at h
  exact h

/-- A control bitmap with the mute bit (bit 0) set passes the handler's
`BIT(MUTE_CONTROL) & (controls << 1)` test. -/
lemma mute_bit_passes (c : Nat) (h : c % 2 = 1) :
    2 ^ MUTE_CONTROL &&& (c <<< 1) ≠ 0 := by
  have ht : (c <<< 1).testBit 1 = true := by
    rw [Nat.testBit_shiftLeft]
    simp [Nat.testBit_zero, h]
  rw [MUTE_CONTROL, Nat.two_pow_and, ht]
  norm_num

/-! ### C3 / C9: the send path -/

/-- C3: on a function whose first endpoint is the ISO IN endpoint,
`usb_audio_send` with `tx_enable` false returns `-EAGAIN` without invoking
`usb_transfer` and without touching the buffer or the device; with
`tx_enable` true and `len` within the buffer's capacity it invokes
`usb_transfer` exactly once and returns 0, and the completion callback
`audio_write_cb` releases the buffer exactly once and invokes
`data_written_cb` exactly once with the transferred size when that observer
is registered. -/
theorem usb_audio_send_spec (d : usb_audio_dev_data)
    (ep0_addr buf_size : Nat) (len size : Int)
    (hin : ep0_addr &&& 0x80 ≠ 0) :
    (d.tx_enable = false →
      usb_audio_send d ep0_addr buf_size len =
        { ret := -EAGAIN, transferCalls := 0, released := 0, dev := d }) ∧
    (d.tx_enable = true → len ≤ (buf_size : Int) →
      (usb_audio_send d ep0_addr buf_size len).ret = 0 ∧
      (usb_audio_send d ep0_addr buf_size len).transferCalls = 1 ∧
      (audio_write_cb d size).released = 1 ∧
      (d.ops.data_written_cb = true →
        (audio_write_cb d size).written_calls = [size])) := by
  constructor
  · intro htx
    simp [usb_audio_send, hin, htx]
  · intro htx hlen
    have hnl : ¬ ((buf_size : Int) < len) := not_lt.mpr hlen
    refine ⟨?_, ?_, ?_, ?_⟩
    · simp [usb_audio_send, hin, htx, hnl]
    · simp [usb_audio_send, hin, htx, hnl]
    · simp [audio_write_cb]
    · intro hcb
      simp [audio_write_cb, hcb]

/-- Witness for `usb_audio_send_spec` at a concrete device. -/
theorem usb_audio_send_spec_witness :
    ((0x81 : Nat) &&& 0x80 ≠ 0) ∧
    (let d : usb_audio_dev_data :=
      ⟨⟨true, true, true, true⟩, [⟨0⟩], [], [], 1, [1], false, true⟩
     (d.tx_enable = false →
       usb_audio_send d 0x81 192 10 =
         { ret := -EAGAIN, transferCalls := 0, released := 0, dev := d }) ∧
     (d.tx_enable = true → (10 : Int) ≤ (192 : Int) →
       (usb_audio_send d 0x81 192 10).ret = 0 ∧
       (usb_audio_send d 0x81 192 10).transferCalls = 1 ∧
       (audio_write_cb d 10).released = 1 ∧
       (d.ops.data_written_cb = true →
         (audio_write_cb d 10).written_calls = [10]))) :=
  ⟨by decide, usb_audio_send_spec _ 0x81 192 10 10 (by decide)⟩

/-- C9: whenever `usb_audio_send` returns a negative status it has not
invoked `usb_transfer`, has not released the caller's buffer, and has left
the device state untouched. -/
theorem usb_audio_send_error_no_effect (d : usb_audio_dev_data)
    (ep0_addr buf_size : Nat) (len : Int) :
    (usb_audio_send d ep0_addr buf_size len).ret < 0 →
      (usb_audio_send d ep0_addr buf_size len).transferCalls = 0 ∧
      (usb_audio_send d ep0_addr buf_size len).released = 0 ∧
      (usb_audio_send d ep0_addr buf_size len).dev = d := by
  unfold usb_audio_send
  split_ifs <;> simp [EINVAL, EAGAIN]

/-- Witness for `usb_audio_send_error_no_effect`: a send on a device whose
first endpoint is an OUT endpoint fails and has no effect. -/
theorem usb_audio_send_error_no_effect_witness :
    (usb_audio_send
        ⟨⟨true, true, true, true⟩, [⟨0⟩], [], [], 1, [1], false, true⟩
        0x01 192 10).ret < 0 ∧
    ((usb_audio_send
        ⟨⟨true, true, true, true⟩, [⟨0⟩], [], [], 1, [1], false, true⟩
        0x01 192 10).transferCalls = 0 ∧
     (usb_audio_send
        ⟨⟨true, true, true, true⟩, [⟨0⟩], [], [], 1, [1], false, true⟩
        0x01 192 10).released = 0 ∧
     (usb_audio_send
        ⟨⟨true, true, true, true⟩, [⟨0⟩], [], [], 1, [1], false, true⟩
        0x01 192 10).dev =
       ⟨⟨true, true, true, true⟩, [⟨0⟩], [], [], 1, [1], false, true⟩) :=
  ⟨by decide, usb_audio_send_error_no_effect _ 0x01 192 10 (by decide)⟩

/-! ### C2: alternate-setting selection gates the receive path -/

/-- C2: selecting alternate setting 0 of a function's OUT streaming interface
clears `rx_enable`, after which `audio_receive_cb` returns without
attempting a buffer allocation and without invoking `data_received_cb`;
selecting alternate setting 1 of that interface sets `rx_enable` again. -/
theorem audio_alt_setting_gates_rx (d : usb_audio_dev_data) (n ep : Nat)
    (hmem : (d.baInterfaceNr.take d.bInCollection).contains n = true)
    (hout : ep &&& 0x80 = 0) :
    (audio_dc_interface d ⟨n, 0, ep⟩).rx_enable = false ∧
    (∀ (buf_avail : Bool) (read_ret : Int) (read_bytes : Nat),
      (audio_receive_cb (audio_dc_interface d ⟨n, 0, ep⟩) buf_avail read_ret
          read_bytes).allocAttempted = false ∧
      (audio_receive_cb (audio_dc_interface d ⟨n, 0, ep⟩) buf_avail read_ret
          read_bytes).delivered = none) ∧
    (audio_dc_interface (audio_dc_interface d ⟨n, 0, ep⟩)
        ⟨n, 1, ep⟩).rx_enable = true := by
  have hmem' : n ∈ d.baInterfaceNr.take d.bInCollection := by
    simpa using hmem
  have h0 : audio_dc_interface d ⟨n, 0, ep⟩ = { d with rx_enable := false } := by
    simp [audio_dc_interface, hmem', hout]
  refine ⟨by rw [h0], fun buf_avail read_ret read_bytes => ?_, ?_⟩
  · rw [h0]
    constructor <;> simp [audio_receive_cb]
  · rw [h0]
    simp [audio_dc_interface, hmem', hout]

/-! ### C6 / C7: descriptor fixup -/

lemma fix_fu_descriptors_std_ac (ds : audio_descriptor_set) :
    (fix_fu_descriptors ds).std_ac_interface = ds.std_ac_interface := by
  unfold fix_fu_descriptors
  cases ds.fus with
  | nil => rfl
  | cons f0 rest => cases rest <;> split_ifs <;> rfl

lemma fix_fu_descriptors_header (ds : audio_descriptor_set) :
    (fix_fu_descriptors ds).header = ds.header := by
  unfold fix_fu_descriptors
  cases ds.fus with
  | nil => rfl
  | cons f0 rest => cases rest <;> split_ifs <;> rfl

lemma fix_fu_descriptors_as_pairs (ds : audio_descriptor_set) :
    (fix_fu_descriptors ds).as_pairs = ds.as_pairs := by
  unfold fix_fu_descriptors
  cases ds.fus with
  | nil => rfl
  | cons f0 rest => cases rest <;> split_ifs <;> rfl

/-- C6: after `audio_interface_config` with base interface number `n`, the
AC interface descriptor carries `n`, both alternate settings of the first
streaming interface carry `n + 1` and `baInterfaceNr[0] = n + 1`; on a
bidirectional function (`bInCollection = 2`) both alternate settings of the
second streaming interface carry `n + 2` and `baInterfaceNr[1] = n + 2`. -/
theorem audio_interface_config_numbers (ds : audio_descriptor_set) (n : Nat)
    (hcoll : ds.header.bInCollection = 1 ∨ ds.header.bInCollection = 2)
    (hpairs : ds.as_pairs.length = ds.header.bInCollection)
    (hifn : ds.header.baInterfaceNr.length = ds.header.bInCollection) :
    (audio_interface_config ds n).std_ac_interface.bInterfaceNumber = n ∧
    ((audio_interface_config ds n).as_pairs.getD 0
        default).1.bInterfaceNumber = n + 1 ∧
    ((audio_interface_config ds n).as_pairs.getD 0
        default).2.bInterfaceNumber = n + 1 ∧
    (audio_interface_config ds n).header.baInterfaceNr.getD 0 0 = n + 1 ∧
    (ds.header.bInCollection = 2 →
      ((audio_interface_config ds n).as_pairs.getD 1
          default).1.bInterfaceNumber = n + 2 ∧
      ((audio_interface_config ds n).as_pairs.getD 1
          default).2.bInterfaceNumber = n + 2 ∧
      (audio_interface_config ds n).header.baInterfaceNr.getD 1 0 = n + 2) := by
  rcases hcoll with h1 | h2
  · obtain ⟨p, hp⟩ := List.length_eq_one.mp (hpairs.trans h1)
    obtain ⟨a, ha⟩ := List.length_eq_one.mp (hifn.trans h1)
    simp only [audio_interface_config, fix_fu_descriptors_std_ac,
      fix_fu_descriptors_header, fix_fu_descriptors_as_pairs, hp, ha, h1]
    norm_num [set_pair_at, set_pair_num]
  · obtain ⟨p, q, hp⟩ := List.length_eq_two.mp (hpairs.trans h2)
    obtain ⟨a, b, ha⟩ := List.length_eq_two.mp (hifn.trans h2)
    simp only [audio_interface_config, fix_fu_descriptors_std_ac,
      fix_fu_descriptors_header, fix_fu_descriptors_as_pairs, hp, ha, h2]
    norm_num [set_pair_at, set_pair_num]

/-- Witness for `audio_interface_config_numbers` on a concrete bidirectional
descriptor set. -/
theorem audio_interface_config_numbers_witness :
    (let ds : audio_descriptor_set :=
      ⟨⟨0, 0⟩, ⟨2, [0, 0]⟩,
       [⟨11, 1, [1, 1], 0x0101⟩, ⟨11, 4, [1, 1], 0x0402⟩],
       [(⟨1, 0⟩, ⟨1, 1⟩), (⟨2, 0⟩, ⟨2, 1⟩)]⟩
     (ds.header.bInCollection = 1 ∨ ds.header.bInCollection = 2) ∧
     ds.as_pairs.length = ds.header.bInCollection ∧
     ds.header.baInterfaceNr.length = ds.header.bInCollection) ∧
    (let ds : audio_descriptor_set :=
      ⟨⟨0, 0⟩, ⟨2, [0, 0]⟩,
       [⟨11, 1, [1, 1], 0x0101⟩, ⟨11, 4, [1, 1], 0x0402⟩],
       [(⟨1, 0⟩, ⟨1, 1⟩), (⟨2, 0⟩, ⟨2, 1⟩)]⟩
     (audio_interface_config ds 3).std_ac_interface.bInterfaceNumber = 3 ∧
     ((audio_interface_config ds 3).as_pairs.getD 0
         default).1.bInterfaceNumber = 4 ∧
     ((audio_interface_config ds 3).as_pairs.getD 0
         default).2.bInterfaceNumber = 4 ∧
     (audio_interface_config ds 3).header.baInterfaceNr.getD 0 0 = 4 ∧
     (ds.header.bInCollection = 2 →
       ((audio_interface_config ds 3).as_pairs.getD 1
           default).1.bInterfaceNumber = 5 ∧
       ((audio_interface_config ds 3).as_pairs.getD 1
           default).2.bInterfaceNumber = 5 ∧
       (audio_interface_config ds 3).header.baInterfaceNr.getD 1 0 = 5)) :=
  ⟨⟨Or.inr (by decide), by decide, by decide⟩,
   audio_interface_config_numbers _ 3 (Or.inr (by decide)) (by decide)
     (by decide)⟩

lemma fix_from_length (c0 : Nat) (k : Nat) (l : List Nat) :
    (fix_from c0 k l).length = l.length := by
  induction l generalizing k with
  | nil => cases k <;> rfl
  | cons x rest ih =>
    cases k with
    | zero => rfl
    | succ k => simp [fix_from, ih]

lemma fix_from_getD (c0 : Nat) (k : Nat) (l : List Nat) (i : Nat) :
    (fix_from c0 k l).getD i 0 =
      if i < k ∧ i < l.length then c0 else l.getD i 0 := by
  induction l generalizing k i with
  | nil =>
    cases k <;> simp [fix_from]
  | cons x rest ih =>
    cases k with
    | zero => simp [fix_from]
    | succ k =>
      cases i with
      | zero => simp [fix_from]
      | succ i =>
        simp only [fix_from, List.getD_cons_succ, ih, List.length_cons]
        by_cases h : i < k ∧ i < rest.length
        · rw [if_pos h, if_pos (by omega)]
        · rw [if_neg h, if_neg (by omega)]

/-- After `fix_fu_one`, every channel in `[1, channel_count)` carries the
channel-0 bitmap, provided the unit's `bLength` matches its declared
`bmaControls` array as every `DECLARE_FEATURE_UNIT` instance does. -/
lemma fix_fu_one_mirrors (fu : feature_unit_descriptor)
    (hwf : fu.bLength = FU_FIXED_ELEMS_SIZE + 2 * fu.bmaControls.length) :
    ∀ i, 1 ≤ i → i < get_num_of_channels (fix_fu_one fu) →
      (fix_fu_one fu).bmaControls.getD i 0 =
        (fix_fu_one fu).bmaControls.getD 0 0 := by
  intro i h1 hi
  have hn : get_num_of_channels (fix_fu_one fu) = fu.bmaControls.length := by
    simp [get_num_of_channels, fix_fu_one, hwf, FU_FIXED_ELEMS_SIZE]
  rw [hn] at hi
  cases hl : fu.bmaControls with
  | nil => rw [hl] at hi; simp at hi
  | cons c0 rest =>
    have hlen : fu.bmaControls.length = rest.length + 1 := by rw [hl]; rfl
    have hbma : (fix_fu_one fu).bmaControls =
        c0 :: fix_from c0 (fu.bmaControls.length - 1) rest := by
      simp [fix_fu_one, fix_bma, hl, get_num_of_channels, hwf,
        FU_FIXED_ELEMS_SIZE, hlen]
    rw [hbma]
    obtain ⟨j, hj⟩ : ∃ j, i = j + 1 := ⟨i - 1, by omega⟩
    subst hj
    rw [List.getD_cons_succ, List.getD_cons_zero, fix_from_getD]
    rw [if_pos (by omega)]

/-- C7: after `fix_fu_descriptors`, every feature unit of the function (one
unit, or two when the AC header's `bInCollection` is 2) has
`bmaControls[i] = bmaControls[0]` for every channel `i` in
`[1, channel_count)`, `channel_count` being derived from the unit's
`bLength`. -/
theorem fix_fu_descriptors_mirrors (ds : audio_descriptor_set)
    (hlen : ds.fus.length = ds.header.bInCollection)
    (hcoll : ds.header.bInCollection = 1 ∨ ds.header.bInCollection = 2)
    (hwf : ∀ fu ∈ ds.fus,
      fu.bLength = FU_FIXED_ELEMS_SIZE + 2 * fu.bmaControls.length) :
    ∀ fu ∈ (fix_fu_descriptors ds).fus, ∀ i, 1 ≤ i →
      i < get_num_of_channels fu →
      fu.bmaControls.getD i 0 = fu.bmaControls.getD 0 0 := by
  rcases hcoll with h1 | h2
  · obtain ⟨f0, hf⟩ := List.length_eq_one.mp (hlen.trans h1)
    have hfix : (fix_fu_descriptors ds).fus = [fix_fu_one f0] := by
      unfold fix_fu_descriptors
      rw [hf]
      simp [h1]
    rw [hfix]
    intro fu hfu
    rw [List.mem_singleton] at hfu
    subst hfu
    exact fix_fu_one_mirrors f0 (hwf f0 (by rw [hf]; exact List.mem_singleton_self f0))
  · obtain ⟨f0, f1, hf⟩ := List.length_eq_two.mp (hlen.trans h2)
    have hfix : (fix_fu_descriptors ds).fus =
        [fix_fu_one f0, fix_fu_one f1] := by
      unfold fix_fu_descriptors
      rw [hf]
      simp [h2]
    rw [hfix]
    intro fu hfu
    rw [List.mem_cons, List.mem_singleton] at hfu
    rcases hfu with hfu | hfu
    · exact hfu ▸ fix_fu_one_mirrors f0 (hwf f0 (by rw [hf]; simp))
    · exact hfu ▸ fix_fu_one_mirrors f1 (hwf f1 (by rw [hf]; simp))

/-- Witness for `fix_fu_descriptors_mirrors` on a concrete bidirectional
descriptor set with three channels per unit. -/
theorem fix_fu_descriptors_mirrors_witness :
    (let ds : audio_descriptor_set :=
      ⟨⟨0, 0⟩, ⟨2, [0, 0]⟩,
       [⟨13, 1, [3, 0, 0], 0x0101⟩, ⟨13, 4, [1, 0, 0], 0x0402⟩],
       [(⟨1, 0⟩, ⟨1, 1⟩), (⟨2, 0⟩, ⟨2, 1⟩)]⟩
     ds.fus.length = ds.header.bInCollection ∧
     (ds.header.bInCollection = 1 ∨ ds.header.bInCollection = 2) ∧
     (∀ fu ∈ ds.fus,
       fu.bLength = FU_FIXED_ELEMS_SIZE + 2 * fu.bmaControls.length)) ∧
    (let ds : audio_descriptor_set :=
      ⟨⟨0, 0⟩, ⟨2, [0, 0]⟩,
       [⟨13, 1, [3, 0, 0], 0x0101⟩, ⟨13, 4, [1, 0, 0], 0x0402⟩],
       [(⟨1, 0⟩, ⟨1, 1⟩), (⟨2, 0⟩, ⟨2, 1⟩)]⟩
     ∀ fu ∈ (fix_fu_descriptors ds).fus, ∀ i, 1 ≤ i →
       i < get_num_of_channels fu →
       fu.bmaControls.getD i 0 = fu.bmaControls.getD 0 0) :=
  ⟨⟨by decide, Or.inr (by decide), by decide⟩,
   fix_fu_descriptors_mirrors _ (by decide) (Or.inr (by decide)) (by decide)⟩

/-- Witness for `audio_alt_setting_gates_rx` at a concrete device. -/
theorem audio_alt_setting_gates_rx_witness :
    (((⟨⟨true, true, true, true⟩, [⟨0⟩], [], [], 1, [1], true, false⟩ :
        usb_audio_dev_data).baInterfaceNr.take 1).contains 1 = true) ∧
    ((audio_dc_interface
        ⟨⟨true, true, true, true⟩, [⟨0⟩], [], [], 1, [1], true, false⟩
        ⟨1, 0, 0x01⟩).rx_enable = false ∧
     (∀ (buf_avail : Bool) (read_ret : Int) (read_bytes : Nat),
       (audio_receive_cb
           (audio_dc_interface
             ⟨⟨true, true, true, true⟩, [⟨0⟩], [], [], 1, [1], true, false⟩
             ⟨1, 0, 0x01⟩) buf_avail read_ret read_bytes).allocAttempted =
         false ∧
       (audio_receive_cb
           (audio_dc_interface
             ⟨⟨true, true, true, true⟩, [⟨0⟩], [], [], 1, [1], true, false⟩
             ⟨1, 0, 0x01⟩) buf_avail read_ret read_bytes).delivered = none) ∧
     (audio_dc_interface
         (audio_dc_interface
           ⟨⟨true, true, true, true⟩, [⟨0⟩], [], [], 1, [1], true, false⟩
           ⟨1, 0, 0x01⟩) ⟨1, 1, 0x01⟩).rx_enable = true) :=
  ⟨by decide, audio_alt_setting_gates_rx _ 1 0x01 (by decide) (by decide)⟩

/-! ### C4: validation failures reject without state change -/

/-- C4: a feature-unit request whose explicit channel number (other than the
0xFF wildcard) is at or past the unit's channel count, or whose control
selector's bit is unset in the control bitmap shifted left by one, returns
`-EINVAL` for every request code and payload and changes no control state,
issues no observer event, and writes nothing to the scratch buffer or the
reply. -/
theorem handle_feature_unit_req_rejects_invalid (d : usb_audio_dev_data)
    (pSetup : usb_setup_packet) (payload tmp : List Nat)
    (h :
      (pSetup.wValue &&& 0xFF ≠ 0xFF ∧
        get_num_of_channels
            (get_feature_unit d ((pSetup.wIndex >>> 8) &&& 0xFF)).2 ≤
          pSetup.wValue &&& 0xFF) ∨
      2 ^ ((pSetup.wValue >>> 8) &&& 0xFF) &&&
        (get_controls
            (get_feature_unit d ((pSetup.wIndex >>> 8) &&& 0xFF)).2 <<< 1) =
        0) :
    (handle_feature_unit_req d pSetup payload tmp).ret = -EINVAL ∧
    (handle_feature_unit_req d pSetup payload tmp).controls0 = d.controls0 ∧
    (handle_feature_unit_req d pSetup payload tmp).controls1 = d.controls1 ∧
    (handle_feature_unit_req d pSetup payload tmp).events = [] ∧
    (handle_feature_unit_req d pSetup payload tmp).scratchWrites = [] ∧
    (handle_feature_unit_req d pSetup payload tmp).tmp = tmp ∧
    (handle_feature_unit_req d pSetup payload tmp).replyLen = none := by
  by_cases hsel : 2 ^ ((pSetup.wValue >>> 8) &&& 0xFF) &&&
      (get_controls
          (get_feature_unit d ((pSetup.wIndex >>> 8) &&& 0xFF)).2 <<< 1) = 0
  · simp [handle_feature_unit_req, hsel]
  · rcases h with ⟨hne, hge⟩ | hbit
    · simp [handle_feature_unit_req, hsel, hne, hge]
    · exact absurd hbit hsel

/-- Witness for `handle_feature_unit_req_rejects_invalid`: a `SET_CUR` on the
volume selector of a mute-only feature unit. -/
theorem handle_feature_unit_req_rejects_invalid_witness :
    (let d : usb_audio_dev_data :=
      ⟨⟨true, true, true, true⟩, [⟨0⟩], [], [⟨9, 11, [1], 0x0101⟩],
        1, [1], false, false⟩
     let s : usb_setup_packet := ⟨0x21, 0x01, 0x0200, 0x0B00⟩
     ((s.wValue &&& 0xFF ≠ 0xFF ∧
        get_num_of_channels
            (get_feature_unit d ((s.wIndex >>> 8) &&& 0xFF)).2 ≤
          s.wValue &&& 0xFF) ∨
      2 ^ ((s.wValue >>> 8) &&& 0xFF) &&&
        (get_controls
            (get_feature_unit d ((s.wIndex >>> 8) &&& 0xFF)).2 <<< 1) = 0) ∧
     (handle_feature_unit_req d s [1] [0, 0, 0]).ret = -EINVAL ∧
     (handle_feature_unit_req d s [1] [0, 0, 0]).controls0 = [⟨0⟩]) := by
  refine ⟨Or.inr (by decide), ?_, ?_⟩
  · exact (handle_feature_unit_req_rejects_invalid _ _ [1] [0, 0, 0]
      (Or.inr (by decide))).1
  · exact (handle_feature_unit_req_rejects_invalid _ _ [1] [0, 0, 0]
      (Or.inr (by decide))).2.1

/-! ### C5: non-mute selectors are not accepted -/

/-- The channel loop leaves the state untouched for every selector other
than `MUTE_CONTROL` (the named selector cases and the default case of the
switch all fall through without acting). -/
lemma fu_fold_non_mute {cb : Bool} {dir : direction}
    {bReq device : Nat} {payload : List Nat} {cs : Nat}
    (hcs : cs ≠ MUTE_CONTROL) :
    ∀ (l : List Nat) (st : fu_loop_state),
      l.foldl (fu_step cb dir bReq cs device payload) st = st := by
  intro l
  induction l with
  | nil => intro st; rfl
  | cons x rest ih =>
    intro st
    rw [List.foldl_cons]
    have hstep : fu_step cb dir bReq cs device payload st x = st := by
      simp [fu_step, hcs]
    rw [hstep]
    exact ih st

/-- Counterexample to C5 as stated: on a feature unit whose bitmap allows
`VOLUME_CONTROL`, a `GET_CUR` on the volume selector of a valid channel does
not return success 0 (the handler leaves `ret` at `-EINVAL`). -/
theorem non_mute_selector_not_accepted :
    (handle_feature_unit_req
        ⟨⟨true, true, true, true⟩, [⟨0⟩], [], [⟨9, 11, [2], 0x0101⟩],
          1, [1], false, false⟩
        ⟨0xA1, 0x81, 0x0200, 0x0B00⟩ [] [0, 0, 0]).ret ≠ 0 := by
  decide

/-- C5 (amended): a control request on a bitmap-allowed selector other than
`MUTE_CONTROL` with a valid channel is rejected with `-EINVAL` (the loop
never sets `ret`), while performing no change to any per-channel control
state and issuing no observer event or scratch write. -/
theorem non_mute_selector_rejected (d : usb_audio_dev_data)
    (pSetup : usb_setup_packet) (payload tmp : List Nat)
    (hcs : (pSetup.wValue >>> 8) &&& 0xFF ≠ MUTE_CONTROL)
    (hbit : 2 ^ ((pSetup.wValue >>> 8) &&& 0xFF) &&&
      (get_controls
          (get_feature_unit d ((pSetup.wIndex >>> 8) &&& 0xFF)).2 <<< 1) ≠ 0)
    (hch : pSetup.wValue &&& 0xFF <
        get_num_of_channels
          (get_feature_unit d ((pSetup.wIndex >>> 8) &&& 0xFF)).2 ∨
      pSetup.wValue &&& 0xFF = 0xFF) :
    (handle_feature_unit_req d pSetup payload tmp).ret = -EINVAL ∧
    (handle_feature_unit_req d pSetup payload tmp).controls0 = d.controls0 ∧
    (handle_feature_unit_req d pSetup payload tmp).controls1 = d.controls1 ∧
    (handle_feature_unit_req d pSetup payload tmp).events = [] ∧
    (handle_feature_unit_req d pSetup payload tmp).scratchWrites = [] := by
  have hch2 : ¬(get_num_of_channels
      (get_feature_unit d ((pSetup.wIndex >>> 8) &&& 0xFF)).2 ≤
        pSetup.wValue &&& 0xFF ∧ pSetup.wValue &&& 0xFF ≠ 0xFF) := by
    rcases hch with h | h
    · intro hc
      omega
    · intro hc
      exact hc.2 h
  simp only [handle_feature_unit_req, if_neg hbit, if_neg hch2]
  rw [fu_fold_non_mute hcs]
  simp

/-- Witness for `non_mute_selector_rejected` at the counterexample's input. -/
theorem non_mute_selector_rejected_witness :
    (let d : usb_audio_dev_data :=
      ⟨⟨true, true, true, true⟩, [⟨0⟩], [], [⟨9, 11, [2], 0x0101⟩],
        1, [1], false, false⟩
     let s : usb_setup_packet := ⟨0xA1, 0x81, 0x0200, 0x0B00⟩
     ((s.wValue >>> 8) &&& 0xFF ≠ MUTE_CONTROL) ∧
     (2 ^ ((s.wValue >>> 8) &&& 0xFF) &&&
        (get_controls
            (get_feature_unit d ((s.wIndex >>> 8) &&& 0xFF)).2 <<< 1) ≠ 0) ∧
     (handle_feature_unit_req d s [] [0, 0, 0]).ret = -EINVAL ∧
     (handle_feature_unit_req d s [] [0, 0, 0]).controls0 = [⟨0⟩]) := by
  refine ⟨by decide, by decide, ?_, ?_⟩
  · exact (non_mute_selector_rejected _ _ [] [0, 0, 0] (by decide) (by decide)
      (Or.inl (by decide))).1
  · exact (non_mute_selector_rejected _ _ [] [0, 0, 0] (by decide) (by decide)
      (Or.inl (by decide))).2.1

/-! ### C10: GET_CUR MUTE reply length and scratch-buffer bounds -/

/-- For a `GET_CUR` on `MUTE_CONTROL`, each loop iteration appends one
scratch write at the current `data_offset` and increments it: over any
channel list the write offsets are consecutive from the initial offset. -/
lemma fu_fold_getcur (cb : Bool) (dir : direction) (device : Nat)
    (payload : List Nat) :
    ∀ (l : List Nat) (st : fu_loop_state),
      ((l.foldl (fu_step cb dir GET_CUR MUTE_CONTROL device payload)
          st).scratchWrites.map Prod.fst =
        st.scratchWrites.map Prod.fst ++
          List.range' st.data_offset l.length) ∧
      (l.foldl (fu_step cb dir GET_CUR MUTE_CONTROL device payload)
          st).data_offset = st.data_offset + l.length := by
  intro l
  induction l with
  | nil => intro st; simp
  | cons x rest ih =>
    intro st
    rw [List.foldl_cons]
    have hstep : fu_step cb dir GET_CUR MUTE_CONTROL device payload st x =
        { st with
          tmp := st.tmp.set st.data_offset (ctrl_get st device x),
          scratchWrites :=
            st.scratchWrites ++ [(st.data_offset, ctrl_get st device x)],
          ret := 0,
          data_offset := st.data_offset + 1 } := by
      simp [fu_step, GET_CUR, SET_CUR, MUTE_CONTROL]
    rw [hstep]
    obtain ⟨ih1, ih2⟩ := ih _
    refine ⟨?_, ?_⟩
    · rw [ih1]
      simp [List.range'_succ]
    · rw [ih2]
      simp
      omega

/-- All offsets of `List.range nn` are below 3 exactly when `nn ≤ 3`. -/
lemma range_all_lt_three (nn : Nat) :
    (∀ i ∈ List.range nn, i < 3) ↔ nn ≤ 3 := by
  constructor
  · intro h
    by_contra hgt
    exact absurd (h 3 (List.mem_range.mpr (by omega))) (by omega)
  · intro h i hi
    have := List.mem_range.mp hi
    omega

/-- Pairs whose first components enumerate `List.range nn` all stay below 3
exactly when `nn ≤ 3`. -/
lemma forall_fst_lt_three_of_map (sw : List (Nat × Nat)) (nn : Nat)
    (hmap : sw.map Prod.fst = List.range nn) :
    (∀ w ∈ sw, w.1 < 3) ↔ nn ≤ 3 := by
  rw [← range_all_lt_three nn]
  constructor
  · intro h i hi
    rw [← hmap] at hi
    obtain ⟨w, hw, hwi⟩ := List.mem_map.mp hi
    exact hwi ▸ h w hw
  · intro h w hw
    exact h w.1 (by rw [← hmap]; exact List.mem_map.mpr ⟨w, hw, rfl⟩)

/-- C10: a device-to-host `GET_CUR` on `MUTE_CONTROL` that passes validation
replies with one byte per requested channel (1 for an explicit channel, the
unit's channel count for the 0xFF wildcard); the reply bytes are produced by
writes into the 3-byte static scratch buffer at offsets `0, 1, …`, and those
writes all stay within the buffer precisely when the requested range spans
at most 3 channels. -/
theorem get_cur_mute_scratch_bounds (d : usb_audio_dev_data)
    (pSetup : usb_setup_packet) (payload tmp : List Nat)
    (hreq : pSetup.bRequest = GET_CUR)
    (hdir : REQTYPE_GET_DIR pSetup.bmRequestType = REQTYPE_DIR_TO_HOST)
    (hcs : (pSetup.wValue >>> 8) &&& 0xFF = MUTE_CONTROL)
    (hmute : get_controls
        (get_feature_unit d ((pSetup.wIndex >>> 8) &&& 0xFF)).2 % 2 = 1)
    (hch : pSetup.wValue &&& 0xFF <
        get_num_of_channels
          (get_feature_unit d ((pSetup.wIndex >>> 8) &&& 0xFF)).2 ∨
      pSetup.wValue &&& 0xFF = 0xFF) :
    (handle_feature_unit_req d pSetup payload tmp).replyLen =
      some (if pSetup.wValue &&& 0xFF = 0xFF then
        get_num_of_channels
          (get_feature_unit d ((pSetup.wIndex >>> 8) &&& 0xFF)).2
      else 1) ∧
    (handle_feature_unit_req d pSetup payload tmp).scratchWrites.map
        Prod.fst =
      List.range (if pSetup.wValue &&& 0xFF = 0xFF then
        get_num_of_channels
          (get_feature_unit d ((pSetup.wIndex >>> 8) &&& 0xFF)).2
      else 1) ∧
    ((∀ w ∈ (handle_feature_unit_req d pSetup payload tmp).scratchWrites,
        w.1 < 3) ↔
      (if pSetup.wValue &&& 0xFF = 0xFF then
        get_num_of_channels
          (get_feature_unit d ((pSetup.wIndex >>> 8) &&& 0xFF)).2
      else 1) ≤ 3) := by
  have hbit : ¬(2 ^ ((pSetup.wValue >>> 8) &&& 0xFF) &&&
      (get_controls
          (get_feature_unit d ((pSetup.wIndex >>> 8) &&& 0xFF)).2 <<< 1) =
      0) := by
    rw [hcs]
    exact mute_bit_passes _ hmute
  have hch2 : ¬(get_num_of_channels
      (get_feature_unit d ((pSetup.wIndex >>> 8) &&& 0xFF)).2 ≤
        pSetup.wValue &&& 0xFF ∧ pSetup.wValue &&& 0xFF ≠ 0xFF) := by
    rcases hch with h | h
    · intro hc
      omega
    · intro hc
      exact hc.2 h
  simp only [handle_feature_unit_req, if_neg hbit, if_neg hch2, hreq,
    if_pos hdir]
  rw [hcs]
  by_cases hwc : pSetup.wValue &&& 0xFF = 0xFF
  · simp only [if_pos hwc, Nat.sub_zero]
    obtain ⟨hmap, hoff⟩ := fu_fold_getcur d.ops.feature_update_cb
      (get_fu_dir (get_feature_unit d ((pSetup.wIndex >>> 8) &&& 0xFF)).2)
      (get_feature_unit d ((pSetup.wIndex >>> 8) &&& 0xFF)).1 payload
      (List.range' 0
        (get_num_of_channels
          (get_feature_unit d ((pSetup.wIndex >>> 8) &&& 0xFF)).2))
      ⟨d.controls0, d.controls1, tmp, [], [], 0, -EINVAL⟩
    rw [List.length_range'] at hmap hoff
    have hmap' : (List.foldl
        (fu_step d.ops.feature_update_cb
          (get_fu_dir (get_feature_unit d ((pSetup.wIndex >>> 8) &&& 0xFF)).2)
          GET_CUR MUTE_CONTROL
          (get_feature_unit d ((pSetup.wIndex >>> 8) &&& 0xFF)).1 payload)
        ⟨d.controls0, d.controls1, tmp, [], [], 0, -EINVAL⟩
        (List.range' 0
          (get_num_of_channels
            (get_feature_unit d
              ((pSetup.wIndex >>> 8) &&& 0xFF)).2))).scratchWrites.map
          Prod.fst =
        List.range
          (get_num_of_channels
            (get_feature_unit d ((pSetup.wIndex >>> 8) &&& 0xFF)).2) := by
      rw [hmap]
      simp [List.range_eq_range']
    refine ⟨by rw [hoff]; simp, hmap', ?_⟩
    exact forall_fst_lt_three_of_map _ _ hmap'
  · simp only [if_neg hwc]
    have hone :
        (pSetup.wValue &&& 0xFF) + 1 - (pSetup.wValue &&& 0xFF) = 1 := by
      omega
    rw [hone, List.range'_one]
    obtain ⟨hmap, hoff⟩ := fu_fold_getcur d.ops.feature_update_cb
      (get_fu_dir (get_feature_unit d ((pSetup.wIndex >>> 8) &&& 0xFF)).2)
      (get_feature_unit d ((pSetup.wIndex >>> 8) &&& 0xFF)).1 payload
      [pSetup.wValue &&& 0xFF]
      ⟨d.controls0, d.controls1, tmp, [], [], 0, -EINVAL⟩
    have hmap' : (List.foldl
        (fu_step d.ops.feature_update_cb
          (get_fu_dir (get_feature_unit d ((pSetup.wIndex >>> 8) &&& 0xFF)).2)
          GET_CUR MUTE_CONTROL
          (get_feature_unit d ((pSetup.wIndex >>> 8) &&& 0xFF)).1 payload)
        ⟨d.controls0, d.controls1, tmp, [], [], 0, -EINVAL⟩
        [pSetup.wValue &&& 0xFF]).scratchWrites.map Prod.fst =
        List.range 1 := by
      rw [hmap]
      simp [List.range_eq_range']
    refine ⟨by rw [hoff]; rfl, hmap', ?_⟩
    exact forall_fst_lt_three_of_map _ _ hmap'

/-- Witness for `get_cur_mute_scratch_bounds`: a wildcard-channel `GET_CUR`
on the mute control of a two-channel unit. -/
theorem get_cur_mute_scratch_bounds_witness :
    (let d : usb_audio_dev_data :=
      ⟨⟨true, true, true, true⟩, [⟨0⟩, ⟨0⟩], [], [⟨11, 11, [1, 1], 0x0101⟩],
        1, [1], false, false⟩
     let s : usb_setup_packet := ⟨0xA1, 0x81, 0x01FF, 0x0B00⟩
     s.bRequest = GET_CUR ∧
     REQTYPE_GET_DIR s.bmRequestType = REQTYPE_DIR_TO_HOST ∧
     (s.wValue >>> 8) &&& 0xFF = MUTE_CONTROL ∧
     get_controls (get_feature_unit d ((s.wIndex >>> 8) &&& 0xFF)).2 % 2 =
       1 ∧
     (s.wValue &&& 0xFF <
        get_num_of_channels
          (get_feature_unit d ((s.wIndex >>> 8) &&& 0xFF)).2 ∨
      s.wValue &&& 0xFF = 0xFF) ∧
     ((handle_feature_unit_req d s [] [0, 0, 0]).replyLen =
        some (if s.wValue &&& 0xFF = 0xFF then
          get_num_of_channels
            (get_feature_unit d ((s.wIndex >>> 8) &&& 0xFF)).2
        else 1) ∧
      (handle_feature_unit_req d s [] [0, 0, 0]).scratchWrites.map
          Prod.fst =
        List.range (if s.wValue &&& 0xFF = 0xFF then
          get_num_of_channels
            (get_feature_unit d ((s.wIndex >>> 8) &&& 0xFF)).2
        else 1) ∧
      ((∀ w ∈ (handle_feature_unit_req d s [] [0, 0, 0]).scratchWrites,
          w.1 < 3) ↔
        (if s.wValue &&& 0xFF = 0xFF then
          get_num_of_channels
            (get_feature_unit d ((s.wIndex >>> 8) &&& 0xFF)).2
        else 1) ≤ 3))) :=
  ⟨by decide, by decide, by decide, by decide, Or.inr (by decide),
   get_cur_mute_scratch_bounds _ _ [] [0, 0, 0] (by decide) (by decide)
     (by decide) (by decide) (Or.inr (by decide))⟩

/-! ### C1: SET_CUR / GET_CUR mute round trip -/

/-- The host-to-device `SET_CUR MUTE_CONTROL` setup packet for unit `fu_id`,
channel `ch` (`wValue` = selector in the high byte, channel in the low byte;
`wIndex` = entity id in the high byte). -/
def mute_set_setup (fu_id ch : Nat) : usb_setup_packet :=
  ⟨0x21, SET_CUR, 256 * MUTE_CONTROL + ch, 256 * fu_id⟩

/-- The device-to-host `GET_CUR MUTE_CONTROL` setup packet for unit `fu_id`,
channel `ch`. -/
def mute_get_setup (fu_id ch : Nat) : usb_setup_packet :=
  ⟨0xA1, GET_CUR, 256 * MUTE_CONTROL + ch, 256 * fu_id⟩

/-- The device state after a `SET_CUR` mute request: the handler's updated
controls tables installed back into the device data. -/
def after_mute_set (d : usb_audio_dev_data) (fu_id ch v : Nat)
    (tmp : List Nat) : usb_audio_dev_data :=
  { d with
    controls0 :=
      (handle_feature_unit_req d (mute_set_setup fu_id ch) [v] tmp).controls0,
    controls1 :=
      (handle_feature_unit_req d (mute_set_setup fu_id ch) [v] tmp).controls1 }

lemma get_feature_unit_fus_only (d1 d2 : usb_audio_dev_data) (id : Nat)
    (h : d1.fus = d2.fus) :
    get_feature_unit d1 id = get_feature_unit d2 id := by
  simp [get_feature_unit, h]

lemma getD_set_self {α : Type} (l : List α) (i : Nat) (a d0 : α)
    (h : i < l.length) : (l.set i a).getD i d0 = a := by
  rw [List.getD_eq_getElem?_getD, List.getElem?_set_self h]
  rfl

lemma take_one_set_zero {α : Type} (l : List α) (a : α) (h : 0 < l.length) :
    (l.set 0 a).take 1 = [a] := by
  cases l with
  | nil => simp at h
  | cons x xs => rfl

/-- Characterization of a validated explicit-channel `SET_CUR MUTE_CONTROL`
request: it stores the payload byte into the addressed channel of the
located unit's controls table, notifies the observer when registered, and
returns 0. -/
lemma handle_mute_set (d : usb_audio_dev_data) (fu_id device ch v : Nat)
    (fu : feature_unit_descriptor) (tmp : List Nat)
    (hfu : get_feature_unit d fu_id = (device, fu))
    (hid : fu_id < 256)
    (hmute : get_controls fu % 2 = 1)
    (hch : ch < get_num_of_channels fu)
    (hch255 : ch < 255) :
    handle_feature_unit_req d (mute_set_setup fu_id ch) [v] tmp =
      { ret := 0,
        controls0 :=
          if device = 0 then d.controls0.set ch ⟨v⟩ else d.controls0,
        controls1 :=
          if device = 0 then d.controls1 else d.controls1.set ch ⟨v⟩,
        tmp := tmp,
        scratchWrites := [],
        events :=
          if d.ops.feature_update_cb then
            [⟨get_fu_dir fu, MUTE_CONTROL, ch, v⟩]
          else [],
        replyLen := none } := by
  have hlo : (256 * MUTE_CONTROL + ch) &&& 0xFF = ch := by
    rw [and_255_eq_mod]
    simp only [MUTE_CONTROL]
    omega
  have hhi : ((256 * MUTE_CONTROL + ch) >>> 8) &&& 0xFF = MUTE_CONTROL := by
    rw [shiftRight_8_eq_div, and_255_eq_mod]
    simp only [MUTE_CONTROL]
    omega
  have hix : ((256 * fu_id) >>> 8) &&& 0xFF = fu_id := by
    rw [shiftRight_8_eq_div, and_255_eq_mod]
    omega
  have hbit : ¬(2 ^ MUTE_CONTROL &&& (get_controls fu <<< 1) = 0) :=
    mute_bit_passes _ hmute
  have hch2 : ¬(get_num_of_channels fu ≤ ch ∧ ch ≠ 0xFF) := by
    intro hc
    omega
  have hchff : ¬(ch = 0xFF) := by omega
  simp only [mute_set_setup, handle_feature_unit_req, hix, hfu, hlo, hhi]
  rw [if_neg hbit, if_neg hch2]
  simp only [if_neg hchff]
  rw [Nat.add_sub_cancel_left, List.range'_one, List.foldl_cons,
    List.foldl_nil]
  have hdir : ¬(REQTYPE_GET_DIR 0x21 = REQTYPE_DIR_TO_HOST) := by decide
  by_cases hdev : device = 0 <;> by_cases hcb : d.ops.feature_update_cb <;>
    simp [fu_step, ctrl_set, hdev, hcb, if_neg hdir]

/-- Characterization of a validated explicit-channel `GET_CUR MUTE_CONTROL`
request: it returns 0, copies the channel's current mute byte into
`tmp_data_ptr[0]`, and replies with that one byte. -/
lemma handle_mute_get (d : usb_audio_dev_data) (fu_id device ch : Nat)
    (fu : feature_unit_descriptor) (tmp : List Nat)
    (hfu : get_feature_unit d fu_id = (device, fu))
    (hid : fu_id < 256)
    (hmute : get_controls fu % 2 = 1)
    (hch : ch < get_num_of_channels fu)
    (hch255 : ch < 255) :
    handle_feature_unit_req d (mute_get_setup fu_id ch) [] tmp =
      { ret := 0,
        controls0 := d.controls0,
        controls1 := d.controls1,
        tmp := tmp.set 0
          (((if device = 0 then d.controls0 else d.controls1).getD ch
              ⟨0⟩).mute),
        scratchWrites :=
          [(0, ((if device = 0 then d.controls0 else d.controls1).getD ch
              ⟨0⟩).mute)],
        events := [],
        replyLen := some 1 } := by
  have hlo : (256 * MUTE_CONTROL + ch) &&& 0xFF = ch := by
    rw [and_255_eq_mod]
    simp only [MUTE_CONTROL]
    omega
  have hhi : ((256 * MUTE_CONTROL + ch) >>> 8) &&& 0xFF = MUTE_CONTROL := by
    rw [shiftRight_8_eq_div, and_255_eq_mod]
    simp only [MUTE_CONTROL]
    omega
  have hix : ((256 * fu_id) >>> 8) &&& 0xFF = fu_id := by
    rw [shiftRight_8_eq_div, and_255_eq_mod]
    omega
  have hbit : ¬(2 ^ MUTE_CONTROL &&& (get_controls fu <<< 1) = 0) :=
    mute_bit_passes _ hmute
  have hch2 : ¬(get_num_of_channels fu ≤ ch ∧ ch ≠ 0xFF) := by
    intro hc
    omega
  have hchff : ¬(ch = 0xFF) := by omega
  simp only [mute_get_setup, handle_feature_unit_req, hix, hfu, hlo, hhi]
  rw [if_neg hbit, if_neg hch2]
  simp only [if_neg hchff]
  rw [Nat.add_sub_cancel_left, List.range'_one, List.foldl_cons,
    List.foldl_nil]
  have hdir : REQTYPE_GET_DIR 0xA1 = REQTYPE_DIR_TO_HOST := by decide
  by_cases hdev : device = 0 <;>
    simp [fu_step, ctrl_get, hdev, if_pos hdir, GET_CUR, SET_CUR,
      MUTE_CONTROL]

/-- C1: on a feature unit whose bitmap has the mute bit set, a successful
`SET_CUR MUTE_CONTROL` with one-byte payload `v` on a valid channel,
followed by a `GET_CUR MUTE_CONTROL` on the same channel and selector,
returns status 0 and a one-byte reply equal to `v`. -/
theorem mute_set_get_roundtrip (d : usb_audio_dev_data)
    (fu_id device ch v : Nat) (fu : feature_unit_descriptor)
    (tmp tmp2 : List Nat)
    (hfu : get_feature_unit d fu_id = (device, fu))
    (hid : fu_id < 256)
    (hmute : get_controls fu % 2 = 1)
    (hch : ch < get_num_of_channels fu)
    (hch255 : ch < 255)
    (hlen : ch < (if device = 0 then d.controls0 else d.controls1).length)
    (htmp2 : 0 < tmp2.length) :
    (handle_feature_unit_req d (mute_set_setup fu_id ch) [v] tmp).ret = 0 ∧
    (handle_feature_unit_req (after_mute_set d fu_id ch v tmp)
        (mute_get_setup fu_id ch) [] tmp2).ret = 0 ∧
    (handle_feature_unit_req (after_mute_set d fu_id ch v tmp)
        (mute_get_setup fu_id ch) [] tmp2).replyLen = some 1 ∧
    (handle_feature_unit_req (after_mute_set d fu_id ch v tmp)
        (mute_get_setup fu_id ch) [] tmp2).tmp.take 1 = [v] := by
  have hset := handle_mute_set d fu_id device ch v fu tmp hfu hid hmute hch
    hch255
  have hfu2 : get_feature_unit (after_mute_set d fu_id ch v tmp) fu_id =
      (device, fu) :=
    (get_feature_unit_fus_only _ d fu_id rfl).trans hfu
  have hget := handle_mute_get (after_mute_set d fu_id ch v tmp) fu_id device
    ch fu tmp2 hfu2 hid hmute hch hch255
  have hmutebyte :
      (((if device = 0 then (after_mute_set d fu_id ch v tmp).controls0
         else (after_mute_set d fu_id ch v tmp).controls1).getD ch
          ⟨0⟩).mute) = v := by
    have hc0 : (after_mute_set d fu_id ch v tmp).controls0 =
        (if device = 0 then d.controls0.set ch ⟨v⟩ else d.controls0) := by
      simp [after_mute_set, hset]
    have hc1 : (after_mute_set d fu_id ch v tmp).controls1 =
        (if device = 0 then d.controls1 else d.controls1.set ch ⟨v⟩) := by
      simp [after_mute_set, hset]
    by_cases hdev : device = 0
    · rw [if_pos hdev, hc0, if_pos hdev]
      rw [if_pos hdev] at hlen
      rw [getD_set_self _ _ _ _ hlen]
    · rw [if_neg hdev, hc1, if_neg hdev]
      rw [if_neg hdev] at hlen
      rw [getD_set_self _ _ _ _ hlen]
  refine ⟨by rw [hset], by rw [hget], by rw [hget], ?_⟩
  rw [hget]
  simp only [hmutebyte]
  exact take_one_set_zero tmp2 v htmp2

/-- Witness for `mute_set_get_roundtrip`: mute channel 1 of a two-channel
headphone unit with payload byte 77 and read it back. -/
theorem mute_set_get_roundtrip_witness :
    (let d : usb_audio_dev_data :=
      ⟨⟨true, true, true, true⟩, [⟨0⟩, ⟨0⟩], [], [⟨11, 11, [1, 1], 0x0101⟩],
        1, [1], false, false⟩
     get_feature_unit d 11 = (0, ⟨11, 11, [1, 1], 0x0101⟩) ∧
     (11 : Nat) < 256 ∧
     get_controls ⟨11, 11, [1, 1], 0x0101⟩ % 2 = 1 ∧
     1 < get_num_of_channels ⟨11, 11, [1, 1], 0x0101⟩ ∧
     (1 : Nat) < 255 ∧
     1 < (if (0 : Nat) = 0 then d.controls0 else d.controls1).length ∧
     0 < ([0, 0, 0] : List Nat).length ∧
     ((handle_feature_unit_req d (mute_set_setup 11 1) [77]
         [0, 0, 0]).ret = 0 ∧
      (handle_feature_unit_req (after_mute_set d 11 1 77 [0, 0, 0])
          (mute_get_setup 11 1) [] [0, 0, 0]).ret = 0 ∧
      (handle_feature_unit_req (after_mute_set d 11 1 77 [0, 0, 0])
          (mute_get_setup 11 1) [] [0, 0, 0]).replyLen = some 1 ∧
      (handle_feature_unit_req (after_mute_set d 11 1 77 [0, 0, 0])
          (mute_get_setup 11 1) [] [0, 0, 0]).tmp.take 1 = [77])) :=
  ⟨by decide, by decide, by decide, by decide, by decide, by decide,
   by decide,
   mute_set_get_roundtrip _ 11 0 1 77 ⟨11, 11, [1, 1], 0x0101⟩ [0, 0, 0]
     [0, 0, 0] (by decide) (by decide) (by decide) (by decide) (by decide)
     (by decide) (by decide)⟩

end ZephyrUsbAudio
